import Mathlib

/-!
Shallow embedding of the Grafana dashboard save/delete pipeline and the
GitLab social connector (pkg/services/dashboards/dashboard_service.go,
pkg/login/social/social.go, pkg/login/social/gitlab_oauth.go).

External collaborators (command bus, guardian, HTTP) are modelled as an
explicit environment record of functions; Go nil-pointer panics are
modelled as `none` in an `Option`-wrapped result.
-/

namespace Grafana

/-- social.DashboardAction: "update" | "create" | "delete". -/
inductive DashboardAction where
  | update
  | create
  | delete
deriving DecidableEq, Repr

/-- gitlab.FileAction values used by getGitlabAction. -/
inductive FileAction where
  | fileUpdate
  | fileCreate
  | fileDelete
deriving DecidableEq, Repr

/-- Error values surfaced by the embedded code; busErr stands for an
arbitrary collaborator error, wrapped models errutil.Wrap. -/
inductive Err where
  | titleEmpty
  | folderCannotHaveParent
  | folderNameExists
  | invalidUid
  | uidTooLong
  | updateAccessDenied
  | cannotSaveProvisioned
  | cannotDeleteProvisioned
  | gitlabSync
  | busErr (code : Nat)
  | wrapped (msg : String) (e : Err)
deriving DecidableEq, Repr

/-- The dashboard JSON payload (simplejson), reduced to a string-valued
object: the code only ever sets/reads the "title" key. -/
def JsonObj := List (String × String)
deriving DecidableEq, Repr

/-- simplejson Set: create or replace a key. -/
def JsonObj.set (j : JsonObj) (k v : String) : JsonObj :=
  (k, v) :: List.filter (fun p => p.1 ≠ k) j

/-- simplejson Get on a string key. -/
def JsonObj.get (j : JsonObj) (k : String) : Option String :=
  (List.find? (fun p => p.1 = k) j).map (·.2)

/-- json.MarshalIndent of the payload: a total deterministic rendering
(marshalling a JSON tree cannot fail). -/
def JsonObj.marshal (j : JsonObj) : String :=
  String.intercalate "," (List.map (fun p => p.1 ++ ":" ++ p.2) j)

/-- models.Dashboard, the fields this pipeline reads or writes. -/
structure Dashboard where
  Id : Int
  Uid : String
  OrgId : Int
  Title : String
  FolderId : Int
  IsFolder : Bool
  Version : Int
  PluginId : String
  Slug : String
  Data : JsonObj
deriving DecidableEq, Repr

/-- models.SignedInUser, the fields this pipeline reads. -/
structure SignedInUser where
  UserId : Int
  OrgId : Int
  OrgRole : String
  AuthModule : String
  Token : String
deriving DecidableEq, Repr

/-- models.ROLE_ADMIN. -/
def ROLE_ADMIN : String := "Admin"

/-- SaveDashboardDTO; UpdatedAt is a Unix-style tick, 0 = Go's zero time. -/
structure SaveDashboardDTO where
  OrgId : Int
  UpdatedAt : Int
  User : SignedInUser
  Message : String
  Overwrite : Bool
  Dashboard : Dashboard
deriving DecidableEq, Repr

/-- models.SaveDashboardCommand as assembled by buildSaveDashboardCommand;
UpdatedAt stays 0 unless the DTO supplied a non-zero timestamp. -/
structure SaveDashboardCommand where
  Dashboard : JsonObj
  Message : String
  OrgId : Int
  Overwrite : Bool
  UserId : Int
  FolderId : Int
  IsFolder : Bool
  PluginId : String
  UpdatedAt : Int
deriving DecidableEq, Repr

/-- models.DashboardProvisioning (contents opaque to this pipeline). -/
structure DashboardProvisioning where
  Name : String
  ExternalId : String
deriving DecidableEq, Repr

/-- Modelled from the spec: util.IsValidShortUID is not under src/;
§3 calls the Uid "a short-form identifier … matching a restricted
charset" and the glossary "a compact, URL-safe, length-bounded
identifier": every character is alphanumeric, a dash, or an underscore. -/
def IsValidShortUID (uid : String) : Bool :=
  uid.data.all (fun c => c.isAlphanum || c = '-' || c = '_')

/-- Modelled from the spec: models.RootFolderName is not under src/;
§4.1 step 4 speaks of "the reserved root-folder name", and
getDashboardFolder (which is under src/) names the root folder
"General". -/
def RootFolderName : String := "General"

/-- strings.TrimSpace: drop whitespace from both ends. -/
def trimSpace (s : String) : String :=
  String.mk
    (((s.data.dropWhile Char.isWhitespace).reverse.dropWhile Char.isWhitespace).reverse)

/-- strings.EqualFold, modelled as case-insensitive equality. -/
def eqFold (a b : String) : Bool :=
  a.data.map Char.toLower = b.data.map Char.toLower

/-- Modelled from the spec: models.Dashboard.SetUid is not under src/;
§4.1 step 1 says "trim Title and Uid", so SetUid stores the given uid
on the dashboard. -/
def Dashboard.SetUid (d : Dashboard) (uid : String) : Dashboard :=
  { d with Uid := uid }

/-- Modelled from the spec: models.Dashboard.GetDashboardIdForSavePermissionCheck
is not under src/; §4.1 step 10 checks "the dashboard's save-permission
target (its own id, or its folder id if the dashboard itself is new)". -/
def Dashboard.GetDashboardIdForSavePermissionCheck (d : Dashboard) : Int :=
  if d.Id = 0 then d.FolderId else d.Id

/-- social.UpdateDashboardOptions. -/
structure UpdateDashboardOptions where
  Action : DashboardAction
  Message : String
  Title : String
  Name : String
  Dashboard : String
  Folder : String
  OrgId : Int
deriving DecidableEq, Repr

/-- A SocialConnector reduced to the one method this pipeline calls.
The result is `none` when the connector panics, `some (.error e)` when it
returns an error, `some (.ok ())` on success. -/
structure Connector where
  updateDashboard : UpdateDashboardOptions → String → Option (Except Err Unit)

/-- The collaborator environment: every bus.Dispatch target, the guardian,
and the process-wide social.SocialMap registry. -/
structure Env where
  validateAlerts : Int → Dashboard → SignedInUser → Option Err
  validateBeforeSave : Int → Dashboard → Bool → Except Err Bool
  provisionedByDashId : Int → Except Err (Option DashboardProvisioning)
  guardianCanSave : Int → Int → SignedInUser → Except Err Bool
  getDashboardById : Int → Except Err Dashboard
  dispatchSave : SaveDashboardCommand → Except Err Dashboard
  dispatchSaveProvisioned : SaveDashboardCommand → DashboardProvisioning → Except Err Dashboard
  updateAlerts : Int → Dashboard → SignedInUser → Option Err
  dispatchDelete : Int → Int → Option Err
  socialMap : List (String × Connector)

/-- Go map lookup on the SocialMap association list. -/
def Env.lookupConnector (env : Env) (name : String) : Option Connector :=
  (List.find? (fun p => p.1 = name) env.socialMap).map (·.2)

/-! ### GitLab connector (pkg/login/social/gitlab_oauth.go) -/

/-- GrafanaGitlabRepo: a per-org repository mapping. -/
structure GrafanaGitlabRepo where
  OrgId : Int
  RepoId : Int
  Branch : String
  DashboardsPath : String
  Url : String
deriving DecidableEq, Repr

/-- The commit-creation request sent to the remote API by UpdateDashboard
(base URL, repo id, and fields of gitlab.CreateCommitOptions). -/
structure CommitRequest where
  baseUrl : String
  repoId : Int
  branch : String
  message : String
  action : FileAction
  content : String
  filePath : String
  token : String
deriving DecidableEq, Repr

/-- The remote GitLab commit API: true = commit accepted, false = any
transport or API failure. -/
def CommitApi := CommitRequest → Bool

/-- SocialGitlab, the fields this pipeline reads. -/
structure SocialGitlab where
  allowedDomains : List String
  allowedGroups : List String
  apiUrl : String
  allowSignup : Bool
  repos : List GrafanaGitlabRepo

/-- getRepo: first RepoMapping whose OrgId matches, nil (none) otherwise. -/
def SocialGitlab.getRepo (s : SocialGitlab) (orgId : Int) : Option GrafanaGitlabRepo :=
  List.find? (fun repo => repo.OrgId = orgId) s.repos

/-- getGitlabAction: map a DashboardAction to a gitlab.FileAction. -/
def SocialGitlab.getGitlabAction (action : DashboardAction) : FileAction :=
  match action with
  | .update => .fileUpdate
  | .create => .fileCreate
  | .delete => .fileDelete

/-- createCommitMessage: message built from the action tag and title. -/
def createCommitMessage (options : UpdateDashboardOptions) : String :=
  match options.Action with
  | .create => "Create " ++ options.Title ++ " dashboard"
  | .delete => "Delete " ++ options.Title ++ " dashboard"
  | .update => "Update " ++ options.Title ++ " dashboard\n\n" ++ options.Message

/-- Go path.Join reduced to what this code needs: drop empty segments and
join with "/". -/
def pathJoin (segments : List String) : String :=
  String.intercalate "/" (List.filter (fun s => s ≠ "") segments)

/-- SocialGitlab.UpdateDashboard. Result none = the Go code panics
(repo is nil and repo.DashboardsPath dereferences it); some (.error e) =
returned error; some (.ok ()) = success. Any remote failure collapses to
Err.gitlabSync. -/
def SocialGitlab.UpdateDashboard (s : SocialGitlab) (api : CommitApi)
    (options : UpdateDashboardOptions) (token : String) :
    Option (Except Err Unit) :=
  match s.getRepo options.OrgId with
  | none => none
  | some repo =>
    let message := createCommitMessage options
    let fileName := options.Name ++ ".json"
    let filePath := pathJoin [repo.DashboardsPath, options.Folder, fileName]
    let req : CommitRequest :=
      { baseUrl := repo.Url
        repoId := repo.RepoId
        branch := repo.Branch
        message := message
        action := SocialGitlab.getGitlabAction options.Action
        content := options.Dashboard
        filePath := filePath
        token := token }
    if api req then some (.ok ()) else some (.error Err.gitlabSync)

/-- SocialGitlab.IsGroupMember. -/
def SocialGitlab.IsGroupMember (s : SocialGitlab) (groups : List String) : Bool :=
  if s.allowedGroups.length = 0 then
    true
  else
    List.any s.allowedGroups (fun allowedGroup =>
      List.any groups (fun group => group = allowedGroup))

/-! Pagination: GetGroupsPage extracts the next-page URL from the Link
response header with the regex pattern <([^>]+)>; rel="next". -/

/-- Try to match the pattern at the head of cs: a '<', at least one
non-'>' character (the capture), a '>', then the literal suffix
starting with a semicolon and naming rel next. -/
def matchNextAt (cs : List Char) : Option String :=
  match cs with
  | '<' :: rest =>
    let inner := List.takeWhile (fun c => c ≠ '>') rest
    let after := List.dropWhile (fun c => c ≠ '>') rest
    if inner.isEmpty then none
    else
      match after with
      | '>' :: tail =>
        if ("; rel=\"next\"").data.isPrefixOf tail then some (String.mk inner)
        else none
      | _ => none
  | _ => none

/-- Leftmost match of the pattern, as regexp.FindStringSubmatch does. -/
def findNextAux : List Char → Option String
  | [] => none
  | c :: rest =>
    match matchNextAt (c :: rest) with
    | some inner => some inner
    | none => findNextAux rest

/-- The capture group of the first match of <([^>]+)>; rel="next". -/
def findNextLink (s : String) : Option String :=
  findNextAux s.data

/-- One element of the groups JSON array: {"full_path": ...}. -/
structure Group where
  full_path : String
deriving DecidableEq, Repr

/-- An HTTP response as GetGroupsPage consumes it: body none = JSON that
fails to parse as []Group; linkHeader = first value of Headers["Link"]. -/
structure PageResponse where
  body : Option (List Group)
  linkHeader : Option String

/-- The identity-provider HTTP endpoint: none = HttpGet error. -/
def Network := String → Option PageResponse

/-- GetGroupsPage: returns the page's full paths (none on fetch or parse
failure) and the next-page URL ("" when absent). -/
def SocialGitlab.GetGroupsPage (net : Network) (url : String) :
    Option (List String) × String :=
  if url = "" then (none, "")
  else
    match net url with
    | none => (none, "")
    | some response =>
      match response.body with
      | none => (none, "")
      | some groups =>
        let fullPaths := List.map (fun g => g.full_path) groups
        let next :=
          match response.linkHeader with
          | some link => (findNextLink link).getD ""
          | none => ""
        (some fullPaths, next)

/-- The loop body of GetGroups, with fuel standing in for the unbounded
Go for-loop (the loop ends as soon as a page comes back nil). -/
def getGroupsLoop (net : Network) : Nat → Option (List String) → String →
    List String → List String
  | 0, _, _, acc => acc
  | _ + 1, none, _, acc => acc
  | fuel + 1, some page, url, acc =>
    let next := SocialGitlab.GetGroupsPage net url
    getGroupsLoop net fuel next.1 next.2 (acc ++ page)

/-- SocialGitlab.GetGroups: accumulate pages starting at apiUrl/groups. -/
def SocialGitlab.GetGroups (s : SocialGitlab) (net : Network) (fuel : Nat) :
    List String :=
  let first := SocialGitlab.GetGroupsPage net (s.apiUrl ++ "/groups")
  getGroupsLoop net fuel first.1 first.2 []

/-- The chain of pages reached by following next links from a given page:
the specification-level view of the pagination loop. -/
def pageChain (net : Network) : Nat → Option (List String) → String →
    List (List String)
  | 0, _, _ => []
  | _ + 1, none, _ => []
  | fuel + 1, some page, url =>
    let next := SocialGitlab.GetGroupsPage net url
    page :: pageChain net fuel next.1 next.2

/-! ### Dashboard service (pkg/services/dashboards/dashboard_service.go) -/

/-- The Go idiom `if canSave, err := g.CanSave(); err != nil || !canSave`:
a guardian error propagates, a false answer denies. -/
def guardianDecision : Except Err Bool → Option Err
  | .error e => some e
  | .ok false => some Err.updateAccessDenied
  | .ok true => none

/-- buildSaveDashboardCommand. Returns the assembled command together with
the normalized dashboard (Go mutates dto.Dashboard in place). -/
def buildSaveDashboardCommand (env : Env) (dto : SaveDashboardDTO)
    (validateAlerts validateProvisionedDashboard : Bool) :
    Except Err (SaveDashboardCommand × Dashboard) :=
  let dash0 := dto.Dashboard
  let title := trimSpace dash0.Title
  let dash :=
    Dashboard.SetUid
      { dash0 with Title := title, Data := dash0.Data.set "title" title }
      (trimSpace dash0.Uid)
  if dash.Title = "" then .error Err.titleEmpty
  else if dash.IsFolder ∧ 0 < dash.FolderId then .error Err.folderCannotHaveParent
  else if dash.IsFolder ∧ eqFold dash.Title RootFolderName then .error Err.folderNameExists
  else if ¬ IsValidShortUID dash.Uid then .error Err.invalidUid
  else if 40 < dash.Uid.length then .error Err.uidTooLong
  else
    match (if validateAlerts then env.validateAlerts dto.OrgId dash dto.User else none) with
    | some e => .error e
    | none =>
      match env.validateBeforeSave dto.OrgId dash dto.Overwrite with
      | .error e => .error e
      | .ok isParentFolderChanged =>
        match (if isParentFolderChanged then
                guardianDecision (env.guardianCanSave dash.FolderId dto.OrgId dto.User)
              else none) with
        | some e => .error e
        | none =>
          match (if validateProvisionedDashboard then
                  match env.provisionedByDashId dash.Id with
                  | .error e => some e
                  | .ok (some _) => some Err.cannotSaveProvisioned
                  | .ok none => none
                else none) with
          | some e => .error e
          | none =>
            match guardianDecision
                (env.guardianCanSave dash.GetDashboardIdForSavePermissionCheck
                  dto.OrgId dto.User) with
            | some e => .error e
            | none =>
              let cmd : SaveDashboardCommand :=
                { Dashboard := dash.Data
                  Message := dto.Message
                  OrgId := dto.OrgId
                  Overwrite := dto.Overwrite
                  UserId := dto.User.UserId
                  FolderId := dash.FolderId
                  IsFolder := dash.IsFolder
                  PluginId := dash.PluginId
                  UpdatedAt := if dto.UpdatedAt ≠ 0 then dto.UpdatedAt else 0 }
              .ok (cmd, dash)

/-- getPreviousDashboard: nil when Version is zero or the by-id query
errors, otherwise the stored dashboard. -/
def getPreviousDashboard (env : Env) (newDashboard : Dashboard) : Option Dashboard :=
  if newDashboard.Version = 0 then none
  else
    match env.getDashboardById newDashboard.Id with
    | .error _ => none
    | .ok result => some result

/-- getDashboardFolder: "General" for the root folder, the folder's Title
otherwise, "unknown" when the folder query errors. -/
def getDashboardFolder (env : Env) (dashboard : Dashboard) : String :=
  if dashboard.FolderId = 0 then "General"
  else
    match env.getDashboardById dashboard.FolderId with
    | .error _ => "unknown"
    | .ok result => result.Title

/-- Package-level updateDashboard. The SocialMap lookup discards the
success flag; a missing auth module leaves a nil connector and the call
connect.UpdateDashboard panics (result none). -/
def updateDashboard (env : Env) (dashboard : Dashboard) (action : DashboardAction)
    (user : SignedInUser) (message : String) : Option (Except Err Unit) :=
  let connect := env.lookupConnector user.AuthModule
  let dashboardModel := dashboard.Data.marshal
  let folderName := getDashboardFolder env dashboard
  let updateOptions : UpdateDashboardOptions :=
    { Dashboard := dashboardModel
      Message := message
      OrgId := dashboard.OrgId
      Action := action
      Title := dashboard.Title
      Folder := folderName
      Name := dashboard.Slug }
  match connect with
  | none => none
  | some c => c.updateDashboard updateOptions user.Token

/-- One emitted mirror operation: the call made and what it returned
(none = the connector call panicked). -/
structure MirrorOp where
  action : DashboardAction
  dash : Dashboard
  message : String
  result : Option (Except Err Unit)

/-- The observable outcome of a save/import flow. result none = a panic
unwound the call; persisted = the persistence command was dispatched;
mirrorOps = mirror calls in emission order; actingUser = the user the
flow ran the build with. -/
structure FlowOut where
  result : Option (Except Err Dashboard)
  persisted : Bool
  mirrorOps : List MirrorOp
  actingUser : SignedInUser

/-- The tail of SaveDashboard shared by every flow that reached
bus.Dispatch(cmd): persist, then synchronize alerts, then return
cmd.Result. -/
def persistAndSyncAlerts (env : Env) (dto : SaveDashboardDTO)
    (cmd : SaveDashboardCommand) (ops : List MirrorOp) : FlowOut :=
  match env.dispatchSave cmd with
  | .error e => ⟨some (.error e), true, ops, dto.User⟩
  | .ok saved =>
    match env.updateAlerts dto.OrgId saved dto.User with
    | some e => ⟨some (.error e), true, ops, dto.User⟩
    | none => ⟨some (.ok saved), true, ops, dto.User⟩

/-- SaveDashboard: build (validateAlerts and validateProvisioned both
true), mirror-sync when the user holds a token, then persist and sync
alerts. In the folder-move branch the Go code overwrites the delete
step's err with the create step's err. -/
def SaveDashboard (env : Env) (dto : SaveDashboardDTO) : FlowOut :=
  match buildSaveDashboardCommand env dto true true with
  | .error e => ⟨some (.error e), false, [], dto.User⟩
  | .ok (cmd, newDashboard) =>
    if dto.User.Token ≠ "" then
      match getPreviousDashboard env newDashboard with
      | some previousDashboard =>
        if previousDashboard.FolderId ≠ newDashboard.FolderId then
          match updateDashboard env previousDashboard .delete dto.User "" with
          | none => ⟨none, false, [⟨.delete, previousDashboard, "", none⟩], dto.User⟩
          | some r1 =>
            let ops1 : List MirrorOp := [⟨.delete, previousDashboard, "", some r1⟩]
            match updateDashboard env newDashboard .create dto.User "" with
            | none => ⟨none, false, ops1 ++ [⟨.create, newDashboard, "", none⟩], dto.User⟩
            | some (.error e) =>
              ⟨some (.error e), false,
                ops1 ++ [⟨.create, newDashboard, "", some (.error e)⟩], dto.User⟩
            | some (.ok _) =>
              persistAndSyncAlerts env dto cmd
                (ops1 ++ [⟨.create, newDashboard, "", some (.ok ())⟩])
        else
          match updateDashboard env newDashboard .update dto.User dto.Message with
          | none => ⟨none, false, [⟨.update, newDashboard, dto.Message, none⟩], dto.User⟩
          | some (.error e) =>
            ⟨some (.error e), false,
              [⟨.update, newDashboard, dto.Message, some (.error e)⟩], dto.User⟩
          | some (.ok _) =>
            persistAndSyncAlerts env dto cmd
              [⟨.update, newDashboard, dto.Message, some (.ok ())⟩]
      | none =>
        match updateDashboard env newDashboard .create dto.User "" with
        | none => ⟨none, false, [⟨.create, newDashboard, "", none⟩], dto.User⟩
        | some (.error e) =>
          ⟨some (.error e), false,
            [⟨.create, newDashboard, "", some (.error e)⟩], dto.User⟩
        | some (.ok _) =>
          persistAndSyncAlerts env dto cmd [⟨.create, newDashboard, "", some (.ok ())⟩]
    else
      persistAndSyncAlerts env dto cmd []

/-- ImportDashboard: build (validateAlerts false, validateProvisioned
true); requires a token, otherwise fails with the gitlab-sync error;
emits one create mirror op carrying dto.Message; persists with no alert
sync. -/
def ImportDashboard (env : Env) (dto : SaveDashboardDTO) : FlowOut :=
  match buildSaveDashboardCommand env dto false true with
  | .error e => ⟨some (.error e), false, [], dto.User⟩
  | .ok (cmd, newDashboard) =>
    if dto.User.Token ≠ "" then
      match updateDashboard env newDashboard .create dto.User dto.Message with
      | none => ⟨none, false, [⟨.create, newDashboard, dto.Message, none⟩], dto.User⟩
      | some (.error e) =>
        ⟨some (.error e), false,
          [⟨.create, newDashboard, dto.Message, some (.error e)⟩], dto.User⟩
      | some (.ok _) =>
        let ops : List MirrorOp := [⟨.create, newDashboard, dto.Message, some (.ok ())⟩]
        match env.dispatchSave cmd with
        | .error e => ⟨some (.error e), true, ops, dto.User⟩
        | .ok saved => ⟨some (.ok saved), true, ops, dto.User⟩
    else
      ⟨some (.error Err.gitlabSync), false, [], dto.User⟩

/-- SaveProvisionedDashboard: replaces the acting user with a synthetic
admin carrying the request's OrgId (all other fields at their zero
values), builds with (validateAlerts true, validateProvisioned false),
dispatches the compound provisioned-save command, then syncs alerts. -/
def SaveProvisionedDashboard (env : Env) (dto : SaveDashboardDTO)
    (provisioning : DashboardProvisioning) : FlowOut :=
  let user : SignedInUser :=
    { UserId := 0, OrgId := dto.OrgId, OrgRole := ROLE_ADMIN, AuthModule := "", Token := "" }
  let dto' := { dto with User := user }
  let core : Option (Except Err Dashboard) × Bool :=
    match buildSaveDashboardCommand env dto' true false with
    | .error e => (some (.error e), false)
    | .ok (cmd, _) =>
      match env.dispatchSaveProvisioned cmd provisioning with
      | .error e => (some (.error e), true)
      | .ok saved =>
        match env.updateAlerts dto'.OrgId saved dto'.User with
        | some e => (some (.error e), true)
        | none => (some (.ok saved), true)
  ⟨core.1, core.2, [], user⟩

/-- SaveFolderForProvisionedDashboards: same synthetic-admin substitution
but the user's OrgId is left at its zero value; builds with
(validateAlerts false, validateProvisioned false), dispatches the plain
save command, then syncs alerts. -/
def SaveFolderForProvisionedDashboards (env : Env) (dto : SaveDashboardDTO) : FlowOut :=
  let user : SignedInUser :=
    { UserId := 0, OrgId := 0, OrgRole := ROLE_ADMIN, AuthModule := "", Token := "" }
  let dto' := { dto with User := user }
  let core : Option (Except Err Dashboard) × Bool :=
    match buildSaveDashboardCommand env dto' false false with
    | .error e => (some (.error e), false)
    | .ok (cmd, _) =>
      match env.dispatchSave cmd with
      | .error e => (some (.error e), true)
      | .ok saved =>
        match env.updateAlerts dto'.OrgId saved dto'.User with
        | some e => (some (.error e), true)
        | none => (some (.ok saved), true)
  ⟨core.1, core.2, [], user⟩

/-- deleteDashboard: when validateProvisionedDashboard, a provisioning
record blocks the delete; otherwise dispatch the delete command. The
second component records whether the delete command was dispatched. -/
def deleteDashboard (env : Env) (dashboardId orgId : Int)
    (validateProvisionedDashboard : Bool) : Except Err Unit × Bool :=
  match (if validateProvisionedDashboard then
          match env.provisionedByDashId dashboardId with
          | .error e =>
            some (.error (Err.wrapped "failed to check if dashboard is provisioned" e))
          | .ok (some _) => some (.error Err.cannotDeleteProvisioned)
          | .ok none => none
        else none) with
  | some r => (r, false)
  | none =>
    match env.dispatchDelete orgId dashboardId with
    | some e => (.error e, true)
    | none => (.ok (), true)

/-- DeleteDashboard: the plain path, with the provisioning check. -/
def DeleteDashboard (env : Env) (dashboardId orgId : Int) : Except Err Unit × Bool :=
  deleteDashboard env dashboardId orgId true

/-- DeleteProvisionedDashboard: skips the provisioning check. -/
def DeleteProvisionedDashboard (env : Env) (dashboardId orgId : Int) :
    Except Err Unit × Bool :=
  deleteDashboard env dashboardId orgId false

/-- Whether buildSaveDashboardCommand succeeds on the given input. -/
def buildSucceeds (env : Env) (dto : SaveDashboardDTO)
    (validateAlerts validateProvisionedDashboard : Bool) : Bool :=
  match buildSaveDashboardCommand env dto validateAlerts validateProvisionedDashboard with
  | .ok _ => true
  | .error _ => false

/-! ### Concrete fixtures used by witnesses and counterexamples -/

/-- A token-holding GitLab-authenticated user. -/
def userTok : SignedInUser :=
  { UserId := 9, OrgId := 2, OrgRole := "Editor", AuthModule := "gitlab", Token := "tok" }

/-- The same user without an external-identity token. -/
def userNoTok : SignedInUser := { userTok with Token := "", AuthModule := "" }

/-- An already-normalized dashboard (trimming is the identity on it). -/
def dashW : Dashboard :=
  { Id := 5, Uid := "abc", OrgId := 2, Title := "My Dash", FolderId := 3,
    IsFolder := false, Version := 4, PluginId := "", Slug := "my-dash", Data := [] }

/-- dashW after the build normalized it (title written into the payload). -/
def dashNorm : Dashboard := { dashW with Data := [("title", "My Dash")] }

/-- A stored folder, answer to folder-title queries. -/
def folderDashW : Dashboard :=
  { Id := 3, Uid := "fold", OrgId := 2, Title := "Folder A", FolderId := 0,
    IsFolder := true, Version := 1, PluginId := "", Slug := "folder-a", Data := [] }

/-- The stored previous version of dashW, sitting in a different folder. -/
def prevDashW : Dashboard := { dashW with FolderId := 7, Version := 3 }

/-- The dashboard the persistence layer hands back. -/
def savedDashW : Dashboard := { dashW with Version := 5 }

/-- dashW with Version 0, i.e. "new, no previous version to diff". -/
def dashV0 : Dashboard := { dashW with Version := 0 }

/-- dashV0 after normalization. -/
def dashNormV0 : Dashboard := { dashNorm with Version := 0 }

/-- An environment in which every collaborator cooperates. -/
def benignEnv : Env :=
  { validateAlerts := fun _ _ _ => none
    validateBeforeSave := fun _ _ _ => .ok false
    provisionedByDashId := fun _ => .ok none
    guardianCanSave := fun _ _ _ => .ok true
    getDashboardById := fun i => if i = 5 then .ok prevDashW else .ok folderDashW
    dispatchSave := fun _ => .ok savedDashW
    dispatchSaveProvisioned := fun _ _ => .ok savedDashW
    updateAlerts := fun _ _ _ => none
    dispatchDelete := fun _ _ => none
    socialMap := [] }

/-- A connector whose delete action fails while every other action
succeeds. -/
def connDeleteFails : Connector :=
  ⟨fun opts _ =>
    if opts.Action = DashboardAction.delete then some (.error (Err.busErr 1))
    else some (.ok ())⟩

/-- A connector on which every action fails with an error. -/
def connAllFail : Connector :=
  ⟨fun _ _ => some (.error (Err.busErr 2))⟩

/-- benignEnv with the delete-fails connector registered for gitlab. -/
def envDeleteFails : Env := { benignEnv with socialMap := [("gitlab", connDeleteFails)] }

/-- benignEnv with the always-failing connector registered for gitlab. -/
def envAllFail : Env := { benignEnv with socialMap := [("gitlab", connAllFail)] }

/-- A save request by the token-holding user for dashW. -/
def dtoW : SaveDashboardDTO :=
  { OrgId := 2, UpdatedAt := 0, User := userTok, Message := "msg",
    Overwrite := false, Dashboard := dashW }

/-- dtoW without a token. -/
def dtoNoTok : SaveDashboardDTO := { dtoW with User := userNoTok }

/-- dtoW for the version-0 dashboard. -/
def dtoV0 : SaveDashboardDTO := { dtoW with Dashboard := dashV0 }

/-- The command the build assembles from dtoW in benignEnv. -/
def cmdW : SaveDashboardCommand :=
  { Dashboard := [("title", "My Dash")], Message := "msg", OrgId := 2,
    Overwrite := false, UserId := 9, FolderId := 3, IsFolder := false,
    PluginId := "", UpdatedAt := 0 }

/-- dtoW with a whitespace-only title. -/
def dtoBlankTitle : SaveDashboardDTO :=
  { dtoW with Dashboard := { dashW with Title := "   " } }

/-- dtoW with a uid that is both invalid in shape and longer than 40
characters. -/
def dtoBadUid : SaveDashboardDTO :=
  { dtoW with Dashboard :=
    { dashW with Uid := "bad uid with spaces and far far far more than forty characters" } }

/-- A provisioning record. -/
def provRec : DashboardProvisioning := { Name := "file", ExternalId := "x" }

/-- benignEnv in which every dashboard id is provisioned. -/
def provEnv : Env := { benignEnv with provisionedByDashId := fun _ => .ok (some provRec) }

/-- A GitLab connector instance with no repository mappings. -/
def gitlabNoRepos : SocialGitlab :=
  { allowedDomains := [], allowedGroups := [], apiUrl := "https://gl/api",
    allowSignup := true, repos := [] }

/-- A repository mapping for org 2. -/
def repoW : GrafanaGitlabRepo :=
  { OrgId := 2, RepoId := 11, Branch := "master", DashboardsPath := "dashboards",
    Url := "https://gl" }

/-- gitlabNoRepos with the org-2 mapping installed. -/
def gitlabWithRepo : SocialGitlab := { gitlabNoRepos with repos := [repoW] }

/-- gitlabNoRepos with a non-empty group allow-list. -/
def gitlabGroups : SocialGitlab :=
  { gitlabNoRepos with allowedGroups := ["team-a", "team-b"] }

/-- A remote commit API that rejects every commit. -/
def apiRejectAll : CommitApi := fun _ => false

/-- Update options naming org 2 (the mapped org in gitlabWithRepo). -/
def optsW : UpdateDashboardOptions :=
  { Action := .update, Message := "m", Title := "My Dash", Name := "my-dash",
    Dashboard := "payload", Folder := "Folder A", OrgId := 2 }

/-- The second and third page URLs of the pagination fixture. -/
def url2 : String := "https://gl/api/groups?page=2"

def url3 : String := "https://gl/api/groups?page=3"

/-- Three pages chained by Link headers; the middle header also carries a
rel prev entry before the rel next entry, and page 3 repeats g2. -/
def threeNet : Network := fun url =>
  if url = "https://gl/api/groups" then
    some { body := some [⟨"g1"⟩, ⟨"g2"⟩],
           linkHeader := some ("<" ++ url2 ++ ">; rel=\"next\", <https://gl/api/groups>; rel=\"first\"") }
  else if url = url2 then
    some { body := some [⟨"g3"⟩, ⟨"g4"⟩],
           linkHeader := some ("<https://gl/api/groups>; rel=\"prev\", <" ++ url3 ++ ">; rel=\"next\"") }
  else if url = url3 then
    some { body := some [⟨"g2"⟩, ⟨"g5"⟩], linkHeader := none }
  else none

/-- Two pages where the second page's body fails to parse. -/
def parseFailNet : Network := fun url =>
  if url = "https://gl/api/groups" then
    some { body := some [⟨"g1"⟩, ⟨"g2"⟩],
           linkHeader := some ("<" ++ url2 ++ ">; rel=\"next\"") }
  else if url = url2 then
    some { body := none, linkHeader := none }
  else none

/-! ### Helper lemmas -/

/-- A key just written into the payload reads back as the written value. -/
theorem JsonObj.get_set_self (j : JsonObj) (k v : String) :
    JsonObj.get (JsonObj.set j k v) k = some v := by
  unfold JsonObj.get JsonObj.set
  rw [List.find?_cons_of_pos _ (by simp)]
  rfl

/-- The persist-then-alert-sync tail dispatches the persistence command
and passes the mirror trace through unchanged. -/
theorem persistAndSyncAlerts_out (env : Env) (dto : SaveDashboardDTO)
    (cmd : SaveDashboardCommand) (ops : List MirrorOp) :
    (persistAndSyncAlerts env dto cmd ops).mirrorOps = ops ∧
    (persistAndSyncAlerts env dto cmd ops).persisted = true := by
  unfold persistAndSyncAlerts
  split
  · exact ⟨rfl, rfl⟩
  · split <;> exact ⟨rfl, rfl⟩

/-- The pagination loop accumulates exactly the chain of pages reached by
following next links. -/
theorem getGroupsLoop_join (net : Network) (fuel : Nat) :
    ∀ (page : Option (List String)) (url : String) (acc : List String),
      getGroupsLoop net fuel page url acc = acc ++ (pageChain net fuel page url).flatten := by
  induction fuel with
  | zero => intro page url acc; cases page <;> simp [getGroupsLoop, pageChain]
  | succ n ih =>
    intro page url acc
    cases page with
    | none => simp [getGroupsLoop, pageChain]
    | some p => simp [getGroupsLoop, pageChain, ih, List.append_assoc]

/-! ### Claim theorems -/

/-- C6: IsGroupMember returns true for every group list (including the
empty list) when the allow-list is empty; with a non-empty allow-list it
returns true iff some user group exactly equals some allowed group. -/
theorem isGroupMember_spec (s : SocialGitlab) (groups : List String) :
    s.IsGroupMember groups = true ↔
      (s.allowedGroups = [] ∨ ∃ g ∈ groups, g ∈ s.allowedGroups) := by
  unfold SocialGitlab.IsGroupMember
  split
  · rename_i h
    simp [List.length_eq_zero.mp h]
  · rename_i h
    have hne : ¬s.allowedGroups = [] := fun he => h (by simp [he])
    simp only [List.any_eq_true, decide_eq_true_eq]
    constructor
    · rintro ⟨aG, haG, g, hg, rfl⟩
      exact Or.inr ⟨g, hg, haG⟩
    · rintro (he | ⟨g, hg, hga⟩)
      · exact absurd he hne
      · exact ⟨g, hga, g, hg, rfl⟩

/-- C7: GetGroups returns the concatenation, in page order then in-page
order without deduplication, of the full-path pages reached by following
the next link extracted from the Link header; concretely, three chained
pages concatenate, and a parse failure on a later page stops the walk. -/
theorem getGroups_pagination_spec :
    (∀ (s : SocialGitlab) (net : Network) (fuel : Nat),
      SocialGitlab.GetGroups s net fuel =
        List.flatten (pageChain net fuel
          (SocialGitlab.GetGroupsPage net (s.apiUrl ++ "/groups")).1
          (SocialGitlab.GetGroupsPage net (s.apiUrl ++ "/groups")).2)) ∧
    SocialGitlab.GetGroups gitlabNoRepos threeNet 10 =
      ["g1", "g2", "g3", "g4", "g2", "g5"] ∧
    SocialGitlab.GetGroups gitlabNoRepos parseFailNet 10 = ["g1", "g2"] := by
  refine ⟨?_, rfl, rfl⟩
  intro s net fuel
  unfold SocialGitlab.GetGroups
  simp [getGroupsLoop_join]

/-- C2 counterexample: with no repo mapping for the org, UpdateDashboard
crashes (nil dereference, modelled as none) instead of returning the
opaque sync-failure error. -/
theorem gitlab_updateDashboard_missing_mapping_crashes :
    SocialGitlab.UpdateDashboard gitlabNoRepos apiRejectAll optsW "tok" = none ∧
    SocialGitlab.UpdateDashboard gitlabNoRepos apiRejectAll optsW "tok" ≠
      some (.error Err.gitlabSync) :=
  ⟨rfl, fun h => Option.noConfusion h⟩

/-- C2 amended: when a repo mapping exists for the org, UpdateDashboard is
total and collapses every remote failure into the opaque sync error; when
no mapping exists, the call crashes instead of returning an error. -/
theorem gitlab_updateDashboard_mapping_dichotomy (s : SocialGitlab) (api : CommitApi)
    (options : UpdateDashboardOptions) (token : String) :
    (s.getRepo options.OrgId = none → s.UpdateDashboard api options token = none) ∧
    (∀ repo, s.getRepo options.OrgId = some repo →
      s.UpdateDashboard api options token = some (.ok ()) ∨
      s.UpdateDashboard api options token = some (.error Err.gitlabSync)) := by
  constructor
  · intro h
    unfold SocialGitlab.UpdateDashboard
    rw [h]
  · intro repo h
    unfold SocialGitlab.UpdateDashboard
    rw [h]
    dsimp only
    split
    · exact Or.inl rfl
    · exact Or.inr rfl

/-- C2 witness: both sides of the dichotomy at concrete inputs. -/
theorem gitlab_updateDashboard_mapping_dichotomy_witness :
    SocialGitlab.UpdateDashboard gitlabNoRepos apiRejectAll optsW "tok" = none ∧
    (SocialGitlab.UpdateDashboard gitlabWithRepo apiRejectAll optsW "tok" = some (.ok ()) ∨
     SocialGitlab.UpdateDashboard gitlabWithRepo apiRejectAll optsW "tok" =
       some (.error Err.gitlabSync)) :=
  ⟨(gitlab_updateDashboard_mapping_dichotomy gitlabNoRepos apiRejectAll optsW "tok").1 rfl,
   (gitlab_updateDashboard_mapping_dichotomy gitlabWithRepo apiRejectAll optsW "tok").2
     repoW rfl⟩

/-- C10: when the acting user's AuthModule is not a key of the provider
registry, the discarded lookup flag leaves a nil connector and
updateDashboard crashes (none) instead of returning an error. -/
theorem updateDashboard_unregistered_module_crashes (env : Env) (dashboard : Dashboard)
    (action : DashboardAction) (user : SignedInUser) (message : String)
    (h : env.lookupConnector user.AuthModule = none) :
    updateDashboard env dashboard action user message = none := by
  unfold updateDashboard
  rw [h]

/-- C10 witness: the empty registry crashes a concrete mirror step. -/
theorem updateDashboard_unregistered_module_crashes_witness :
    updateDashboard benignEnv dashW .create userTok "msg" = none :=
  updateDashboard_unregistered_module_crashes benignEnv dashW .create userTok "msg" rfl

/-- C9: SaveProvisionedDashboard substitutes a synthetic admin user whose
OrgId is the request's OrgId and whose token is empty, and emits no
mirror operations; SaveFolderForProvisionedDashboards makes the same
substitution but leaves the synthetic user's OrgId at zero. -/
theorem provisioned_save_synthetic_admin_spec (env : Env) (dto : SaveDashboardDTO)
    (provisioning : DashboardProvisioning) :
    (SaveProvisionedDashboard env dto provisioning).actingUser =
      { UserId := 0, OrgId := dto.OrgId, OrgRole := ROLE_ADMIN,
        AuthModule := "", Token := "" } ∧
    (SaveProvisionedDashboard env dto provisioning).actingUser.Token = "" ∧
    (SaveProvisionedDashboard env dto provisioning).mirrorOps = [] ∧
    (SaveFolderForProvisionedDashboards env dto).actingUser =
      { UserId := 0, OrgId := 0, OrgRole := ROLE_ADMIN,
        AuthModule := "", Token := "" } ∧
    (SaveFolderForProvisionedDashboards env dto).mirrorOps = [] :=
  ⟨rfl, rfl, rfl, rfl, rfl⟩

/-- C8: a dashboard id with a provisioning record makes the plain delete
path fail with the cannot-delete-provisioned error without dispatching,
while the provisioned-override path always dispatches the delete. -/
theorem delete_provisioned_gating_spec (env : Env) (dashboardId orgId : Int)
    (record : DashboardProvisioning)
    (h : env.provisionedByDashId dashboardId = .ok (some record)) :
    DeleteDashboard env dashboardId orgId =
      (.error Err.cannotDeleteProvisioned, false) ∧
    ∀ id2 org2 : Int, (DeleteProvisionedDashboard env id2 org2).2 = true := by
  constructor
  · simp [DeleteDashboard, deleteDashboard, h]
  · intro id2 org2
    unfold DeleteProvisionedDashboard deleteDashboard
    cases hd : env.dispatchDelete org2 id2 <;> simp [hd]

/-- C8 witness: both halves at concrete inputs in a fully provisioned
environment. -/
theorem delete_provisioned_gating_spec_witness :
    DeleteDashboard provEnv 5 2 = (.error Err.cannotDeleteProvisioned, false) ∧
    (DeleteProvisionedDashboard provEnv 7 3).2 = true :=
  ⟨(delete_provisioned_gating_spec provEnv 5 2 provRec rfl).1,
   (delete_provisioned_gating_spec provEnv 5 2 provRec rfl).2 7 3⟩

/-- C3: a successful build yields a non-empty trimmed Title mirrored in
the payload under key "title" and a Uid of valid shape and length at
most 40; the Uid shape check precedes the length check; a whitespace-only
Title fails with the empty-title error. -/
theorem buildSaveDashboardCommand_validation_spec :
    (∀ (env : Env) (dto : SaveDashboardDTO) (va vp : Bool)
        (cmd : SaveDashboardCommand) (dash2 : Dashboard),
      buildSaveDashboardCommand env dto va vp = .ok (cmd, dash2) →
        dash2.Title ≠ "" ∧
        dash2.Title = trimSpace dto.Dashboard.Title ∧
        JsonObj.get dash2.Data "title" = some dash2.Title ∧
        cmd.Dashboard = dash2.Data ∧
        IsValidShortUID dash2.Uid = true ∧
        dash2.Uid.length ≤ 40) ∧
    (∀ (env : Env) (dto : SaveDashboardDTO) (va vp : Bool),
      trimSpace dto.Dashboard.Title ≠ "" →
      ¬(dto.Dashboard.IsFolder ∧ 0 < dto.Dashboard.FolderId) →
      ¬(dto.Dashboard.IsFolder ∧ eqFold (trimSpace dto.Dashboard.Title) RootFolderName) →
      ¬IsValidShortUID (trimSpace dto.Dashboard.Uid) →
      buildSaveDashboardCommand env dto va vp = .error Err.invalidUid) ∧
    (∀ (env : Env) (dto : SaveDashboardDTO) (va vp : Bool),
      trimSpace dto.Dashboard.Title = "" →
      buildSaveDashboardCommand env dto va vp = .error Err.titleEmpty) := by
  refine ⟨?_, ?_, ?_⟩
  · intro env dto va vp cmd dash2 h
    simp only [buildSaveDashboardCommand, Dashboard.SetUid] at h
    split at h
    next => exact Except.noConfusion h
    next hTitle =>
    split at h
    next => exact Except.noConfusion h
    next =>
    split at h
    next => exact Except.noConfusion h
    next =>
    split at h
    next => exact Except.noConfusion h
    next hUid =>
    split at h
    next => exact Except.noConfusion h
    next hLen =>
    split at h
    next e heq => exact Except.noConfusion h
    next heq1 =>
    split at h
    next e heq => exact Except.noConfusion h
    next b heq2 =>
    split at h
    next e heq => exact Except.noConfusion h
    next heq3 =>
    split at h
    next e heq => exact Except.noConfusion h
    next heq4 =>
    split at h
    next e heq => exact Except.noConfusion h
    next heq5 =>
    injection h with hpair
    injection hpair with hcmd hdash
    subst hcmd hdash
    exact ⟨hTitle, rfl, JsonObj.get_set_self _ _ _, rfl,
      not_not.mp hUid, Nat.le_of_not_lt hLen⟩
  · intro env dto va vp ht hf1 hf2 hu
    simp only [buildSaveDashboardCommand, Dashboard.SetUid]
    rw [if_neg ht, if_neg hf1, if_neg hf2, if_pos hu]
  · intro env dto va vp ht
    simp only [buildSaveDashboardCommand, Dashboard.SetUid]
    rw [if_pos ht]

/-- C3 witness: the normalization conclusions at a concrete successful
build; an invalid over-long Uid reports the shape error; a
whitespace-only Title reports the empty-title error. -/
theorem buildSaveDashboardCommand_validation_spec_witness :
    (dashNorm.Title ≠ "" ∧
     dashNorm.Title = trimSpace dtoW.Dashboard.Title ∧
     JsonObj.get dashNorm.Data "title" = some dashNorm.Title ∧
     cmdW.Dashboard = dashNorm.Data ∧
     IsValidShortUID dashNorm.Uid = true ∧
     dashNorm.Uid.length ≤ 40) ∧
    buildSaveDashboardCommand benignEnv dtoBadUid true true = .error Err.invalidUid ∧
    buildSaveDashboardCommand benignEnv dtoBlankTitle true true = .error Err.titleEmpty :=
  ⟨buildSaveDashboardCommand_validation_spec.1 benignEnv dtoW true true cmdW dashNorm rfl,
   buildSaveDashboardCommand_validation_spec.2.1 benignEnv dtoBadUid true true
     (by decide) (by decide) (by decide) (by decide),
   buildSaveDashboardCommand_validation_spec.2.2 benignEnv dtoBlankTitle true true
     (by decide)⟩

/-- C4: when the build succeeds and the acting user has no
external-identity token, ImportDashboard fails with the sync-required
error, dispatches no persistence command, and emits no mirror op. -/
theorem importDashboard_without_token_sync_required (env : Env) (dto : SaveDashboardDTO)
    (hbuild : buildSucceeds env dto false true = true)
    (htok : dto.User.Token = "") :
    (ImportDashboard env dto).result = some (.error Err.gitlabSync) ∧
    (ImportDashboard env dto).persisted = false ∧
    (ImportDashboard env dto).mirrorOps = [] := by
  unfold buildSucceeds at hbuild
  have key : ImportDashboard env dto = ⟨some (.error Err.gitlabSync), false, [], dto.User⟩ := by
    unfold ImportDashboard
    cases hb : buildSaveDashboardCommand env dto false true with
    | error e => rw [hb] at hbuild; exact Bool.noConfusion hbuild
    | ok r =>
      obtain ⟨cmd, newDashboard⟩ := r
      dsimp only
      rw [if_neg (fun hne => hne htok)]
  rw [key]
  exact ⟨rfl, rfl, rfl⟩

/-- C4 witness: a concrete token-less import in a cooperative
environment. -/
theorem importDashboard_without_token_sync_required_witness :
    (ImportDashboard benignEnv dtoNoTok).result = some (.error Err.gitlabSync) ∧
    (ImportDashboard benignEnv dtoNoTok).persisted = false ∧
    (ImportDashboard benignEnv dtoNoTok).mirrorOps = [] :=
  importDashboard_without_token_sync_required benignEnv dtoNoTok rfl rfl

/-- C5: the previous-version lookup yields none whenever the incoming
Version is zero, independent of the environment; with a token-holding
user the emitted mirror operations are a single create when no previous
version exists, a single update carrying the caller's commit message when
the previous version sits in the same folder, and a delete of the old
dashboard followed by a create of the new one when the folders differ. -/
theorem saveDashboard_mirror_operations_spec :
    (∀ (env : Env) (d : Dashboard), d.Version = 0 → getPreviousDashboard env d = none) ∧
    (∀ (env : Env) (dto : SaveDashboardDTO) (cmd : SaveDashboardCommand)
        (dash2 : Dashboard),
      buildSaveDashboardCommand env dto true true = .ok (cmd, dash2) →
      dto.User.Token ≠ "" →
      getPreviousDashboard env dash2 = none →
      (SaveDashboard env dto).mirrorOps =
        [⟨.create, dash2, "", updateDashboard env dash2 .create dto.User ""⟩]) ∧
    (∀ (env : Env) (dto : SaveDashboardDTO) (cmd : SaveDashboardCommand)
        (dash2 prev : Dashboard),
      buildSaveDashboardCommand env dto true true = .ok (cmd, dash2) →
      dto.User.Token ≠ "" →
      getPreviousDashboard env dash2 = some prev →
      prev.FolderId = dash2.FolderId →
      (SaveDashboard env dto).mirrorOps =
        [⟨.update, dash2, dto.Message,
          updateDashboard env dash2 .update dto.User dto.Message⟩]) ∧
    (∀ (env : Env) (dto : SaveDashboardDTO) (cmd : SaveDashboardCommand)
        (dash2 prev : Dashboard) (r1 : Except Err Unit),
      buildSaveDashboardCommand env dto true true = .ok (cmd, dash2) →
      dto.User.Token ≠ "" →
      getPreviousDashboard env dash2 = some prev →
      prev.FolderId ≠ dash2.FolderId →
      updateDashboard env prev .delete dto.User "" = some r1 →
      (SaveDashboard env dto).mirrorOps =
        [⟨.delete, prev, "", some r1⟩,
         ⟨.create, dash2, "", updateDashboard env dash2 .create dto.User ""⟩]) := by
  refine ⟨?_, ?_, ?_, ?_⟩
  · intro env d hv
    unfold getPreviousDashboard
    rw [if_pos hv]
  · intro env dto cmd dash2 hb ht hp
    unfold SaveDashboard
    rw [hb]
    dsimp only
    rw [if_pos ht, hp]
    dsimp only
    cases hc : updateDashboard env dash2 .create dto.User "" with
    | none => rfl
    | some r =>
      cases r with
      | error e => rfl
      | ok u =>
        cases u
        exact (persistAndSyncAlerts_out env dto cmd _).1
  · intro env dto cmd dash2 prev hb ht hp hsame
    unfold SaveDashboard
    rw [hb]
    dsimp only
    rw [if_pos ht, hp]
    dsimp only
    rw [if_neg (fun hne => hne hsame)]
    cases hc : updateDashboard env dash2 .update dto.User dto.Message with
    | none => rfl
    | some r =>
      cases r with
      | error e => rfl
      | ok u =>
        cases u
        exact (persistAndSyncAlerts_out env dto cmd _).1
  · intro env dto cmd dash2 prev r1 hb ht hp hdiff hdel
    unfold SaveDashboard
    rw [hb]
    dsimp only
    rw [if_pos ht, hp]
    dsimp only
    rw [if_pos hdiff, hdel]
    dsimp only
    cases hc : updateDashboard env dash2 .create dto.User "" with
    | none => rfl
    | some r =>
      cases r with
      | error e => rfl
      | ok u =>
        cases u
        exact (persistAndSyncAlerts_out env dto cmd _).1

/-- C5 witness: the version-zero case, and the two-step folder-move ops
at a concrete environment in which the delete step fails. -/
theorem saveDashboard_mirror_operations_spec_witness :
    getPreviousDashboard benignEnv dashV0 = none ∧
    (SaveDashboard envDeleteFails dtoW).mirrorOps =
      [⟨.delete, prevDashW, "", some (.error (Err.busErr 1))⟩,
       ⟨.create, dashNorm, "", some (.ok ())⟩] :=
  ⟨saveDashboard_mirror_operations_spec.1 benignEnv dashV0 rfl,
   saveDashboard_mirror_operations_spec.2.2.2 envDeleteFails dtoW cmdW dashNorm
     prevDashW (.error (Err.busErr 1)) rfl (by decide) rfl (by decide) rfl⟩

/-- C1 counterexample: a run in which the delete step of the two-step
folder-move mirror fails, yet the create step succeeds, the save
dispatches persistence and returns the persisted dashboard. -/
theorem saveDashboard_discards_delete_step_error :
    (SaveDashboard envDeleteFails dtoW).persisted = true ∧
    List.map (fun op => (op.action, op.result))
        (SaveDashboard envDeleteFails dtoW).mirrorOps =
      [(DashboardAction.delete, some (Except.error (Err.busErr 1))),
       (DashboardAction.create, some (Except.ok ()))] ∧
    (SaveDashboard envDeleteFails dtoW).result = some (.ok savedDashW) :=
  ⟨rfl, rfl, rfl⟩

/-- C1 amended: an error from the sole create, the sole update, or the
create step of a two-step folder move aborts the save before persistence
dispatch; an error from the delete step of a two-step move is discarded
when the subsequent create succeeds, and persistence is dispatched. -/
theorem saveDashboard_mirror_error_abort_policy :
    (∀ (env : Env) (dto : SaveDashboardDTO) (cmd : SaveDashboardCommand)
        (dash2 : Dashboard) (e : Err),
      buildSaveDashboardCommand env dto true true = .ok (cmd, dash2) →
      dto.User.Token ≠ "" →
      getPreviousDashboard env dash2 = none →
      updateDashboard env dash2 .create dto.User "" = some (.error e) →
      (SaveDashboard env dto).result = some (.error e) ∧
      (SaveDashboard env dto).persisted = false) ∧
    (∀ (env : Env) (dto : SaveDashboardDTO) (cmd : SaveDashboardCommand)
        (dash2 prev : Dashboard) (e : Err),
      buildSaveDashboardCommand env dto true true = .ok (cmd, dash2) →
      dto.User.Token ≠ "" →
      getPreviousDashboard env dash2 = some prev →
      prev.FolderId = dash2.FolderId →
      updateDashboard env dash2 .update dto.User dto.Message = some (.error e) →
      (SaveDashboard env dto).result = some (.error e) ∧
      (SaveDashboard env dto).persisted = false) ∧
    (∀ (env : Env) (dto : SaveDashboardDTO) (cmd : SaveDashboardCommand)
        (dash2 prev : Dashboard) (r1 : Except Err Unit) (e : Err),
      buildSaveDashboardCommand env dto true true = .ok (cmd, dash2) →
      dto.User.Token ≠ "" →
      getPreviousDashboard env dash2 = some prev →
      prev.FolderId ≠ dash2.FolderId →
      updateDashboard env prev .delete dto.User "" = some r1 →
      updateDashboard env dash2 .create dto.User "" = some (.error e) →
      (SaveDashboard env dto).result = some (.error e) ∧
      (SaveDashboard env dto).persisted = false) ∧
    (∀ (env : Env) (dto : SaveDashboardDTO) (cmd : SaveDashboardCommand)
        (dash2 prev : Dashboard) (e1 : Err),
      buildSaveDashboardCommand env dto true true = .ok (cmd, dash2) →
      dto.User.Token ≠ "" →
      getPreviousDashboard env dash2 = some prev →
      prev.FolderId ≠ dash2.FolderId →
      updateDashboard env prev .delete dto.User "" = some (.error e1) →
      updateDashboard env dash2 .create dto.User "" = some (.ok ()) →
      (SaveDashboard env dto).persisted = true) := by
  refine ⟨?_, ?_, ?_, ?_⟩
  · intro env dto cmd dash2 e hb ht hp hc
    unfold SaveDashboard
    rw [hb]
    dsimp only
    rw [if_pos ht, hp]
    dsimp only
    rw [hc]
    exact ⟨rfl, rfl⟩
  · intro env dto cmd dash2 prev e hb ht hp hsame hu
    unfold SaveDashboard
    rw [hb]
    dsimp only
    rw [if_pos ht, hp]
    dsimp only
    rw [if_neg (fun hne => hne hsame), hu]
    exact ⟨rfl, rfl⟩
  · intro env dto cmd dash2 prev r1 e hb ht hp hdiff hdel hc
    unfold SaveDashboard
    rw [hb]
    dsimp only
    rw [if_pos ht, hp]
    dsimp only
    rw [if_pos hdiff, hdel]
    dsimp only
    rw [hc]
    exact ⟨rfl, rfl⟩
  · intro env dto cmd dash2 prev e1 hb ht hp hdiff hdel hc
    unfold SaveDashboard
    rw [hb]
    dsimp only
    rw [if_pos ht, hp]
    dsimp only
    rw [if_pos hdiff, hdel]
    dsimp only
    rw [hc]
    exact (persistAndSyncAlerts_out env dto cmd _).2

/-- C1 amended witness: a sole-create error aborts without dispatch, and a
delete-step error followed by a successful create still dispatches. -/
theorem saveDashboard_mirror_error_abort_policy_witness :
    ((SaveDashboard envAllFail dtoV0).result = some (.error (Err.busErr 2)) ∧
     (SaveDashboard envAllFail dtoV0).persisted = false) ∧
    (SaveDashboard envDeleteFails dtoW).persisted = true :=
  ⟨saveDashboard_mirror_error_abort_policy.1 envAllFail dtoV0 cmdW dashNormV0
     (Err.busErr 2) rfl (by decide) rfl rfl,
   saveDashboard_mirror_error_abort_policy.2.2.2 envDeleteFails dtoW cmdW dashNorm
     prevDashW (Err.busErr 1) rfl (by decide) rfl (by decide) rfl rfl⟩

end Grafana
